import Mathlib

set_option maxHeartbeats 1000000

/-!
Shallow embedding of the token-refresh access layer in
`src/frontend/src/api/client.ts`: the request interceptor (credential
attachment from `localStorage 'access_token'`), the response interceptor's
401 handler with its single-flight refresh coordinator
(`isRefreshing` / `failedQueue` / `processQueue`), and a deterministic
scheduler for a burst of logically concurrent 401s under the
single-threaded event-loop semantics the client runs in.
-/

/-- An axios request config as the interceptors see it: the request `url`,
the `_retry` marker set by the coordinator before the one-shot retry, and
the `headers.Authorization` value. -/
structure RequestConfig where
  url : String
  retry : Bool
  authHeader : Option String
  deriving DecidableEq, Repr

/-- The module-level mutable state of `client.ts`: the `isRefreshing` flag,
the `failedQueue` of suspended waiters (identified by numeric ids, in
arrival order), and the credential store (`localStorage 'access_token'`,
`none` when the key is absent). -/
structure ClientState where
  isRefreshing : Bool
  failedQueue : List Nat
  accessToken : Option String
  deriving DecidableEq, Repr

/-- Identity of an error object flowing through the promise chain: either
the response error of burst request `wid`, or the error of the refresh
call itself.  `status = none` models a network error with no response. -/
inductive ErrVal where
  | requestErr (wid : Nat) (status : Option Nat)
  | refreshErr (status : Option Nat)
  deriving DecidableEq, Repr

/-- Observable side effects of the client, in program order. -/
inductive Event where
  | refreshCall (sent : RequestConfig)
  | storeSet (t : String)
  | storeClear
  | notify
  | redirect
  | resolveWaiter (wid : Nat) (t : String)
  | rejectWaiter (wid : Nat) (e : ErrVal)
  | replay (wid : Nat) (auth : Option String)
  deriving DecidableEq, Repr

/-- Outcome of the synchronous prefix of the 401 handler for one request:
rejected with its original error, pushed onto `failedQueue`, or the sole
initiator of a refresh call. -/
inductive SyncResult where
  | rejectOriginal
  | enqueued
  | initiated
  deriving DecidableEq, Repr

/-- Whether the pattern matches a leading segment of the character list. -/
def leadMatch : List Char → List Char → Bool
  | [], _ => true
  | _ :: _, [] => false
  | p :: ps, c :: cs => p == c && leadMatch ps cs

/-- Whether `pat` occurs as a contiguous substring of `hay`
(JavaScript `String.prototype.includes`). -/
def containsSub : List Char → List Char → Bool
  | [], pat => pat.isEmpty
  | hay@(_ :: rest), pat => leadMatch pat hay || containsSub rest pat

/-- `url.includes(pat)` from the source's endpoint checks. -/
def urlIncludes (url pat : String) : Bool :=
  containsSub url.toList pat.toList

/-- The request interceptor: read the token from the credential store and,
when it is present and truthy (the empty string is falsy in JavaScript),
set `config.headers.Authorization = Bearer <token>`. -/
def requestInterceptor (store : Option String) (config : RequestConfig) :
    RequestConfig :=
  match store with
  | some token =>
      if token = "" then config
      else { config with authHeader := some ("Bearer " ++ token) }
  | none => config

/-- The config of `api.post('/auth/refresh')` before the request
interceptor runs: fresh config, no `_retry`, no preset header. -/
def refreshBase : RequestConfig :=
  { url := "/auth/refresh", retry := false, authHeader := none }

/-- The success branch of the response interceptor: `(response) => response`. -/
def responseFulfilled (response : RequestConfig × Nat) : RequestConfig × Nat :=
  response

/-- The synchronous prefix of the response interceptor's error handler, run
atomically up to its first suspension point.  Mirrors `client.ts` lines
34-67: the `status === 401 && !_retry` guard, the `/auth/login`
pass-through, the `/auth/refresh` session-expiry branch, the
`isRefreshing` enqueue branch, and the initiation branch that sets
`_retry` and `isRefreshing` synchronously and dispatches the refresh call
(whose config passes through the request interceptor). -/
def responseErrorSync (st : ClientState) (wid : Nat) (status : Option Nat)
    (cfg : RequestConfig) : SyncResult × RequestConfig × ClientState × List Event :=
  if status = some 401 ∧ cfg.retry = false then
    if urlIncludes cfg.url "/auth/login" then
      (SyncResult.rejectOriginal, cfg, st, [])
    else if urlIncludes cfg.url "/auth/refresh" then
      (SyncResult.rejectOriginal, cfg, { st with accessToken := none },
        [Event.storeClear, Event.notify, Event.redirect])
    else if st.isRefreshing then
      (SyncResult.enqueued, cfg,
        { st with failedQueue := st.failedQueue ++ [wid] }, [])
    else
      (SyncResult.initiated, { cfg with retry := true },
        { st with isRefreshing := true },
        [Event.refreshCall (requestInterceptor st.accessToken refreshBase)])
  else
    (SyncResult.rejectOriginal, cfg, st, [])

/-- `processQueue(error, token)`: signal every queued waiter in queue
order — reject each with `error` when it is set, otherwise resolve each
with `token!` — and reset `failedQueue` to `[]`.  Returns the signal
events in order and the new queue. -/
def processQueue (error : Option ErrVal) (token : Option String)
    (q : List Nat) : List Event × List Nat :=
  (q.map (fun prom =>
    match error with
    | some e => Event.rejectWaiter prom e
    | none => Event.resolveWaiter prom (token.getD "")), [])

/-- Phase A of a burst: each of the listed requests receives its 401 and
its handler runs its synchronous prefix, in arrival order (single-threaded
event loop: each prefix is atomic). -/
def burstPhaseA : ClientState → List (Nat × RequestConfig) →
    ClientState × List (Nat × SyncResult × RequestConfig) × List Event
  | st, [] => (st, [], [])
  | st, (wid, cfg) :: rest =>
      match responseErrorSync st wid (some 401) cfg with
      | (r, cfg2, st2, evs) =>
          match burstPhaseA st2 rest with
          | (st3, rs, evs2) => (st3, (wid, r, cfg2) :: rs, evs ++ evs2)

/-- The config the refresh call was dispatched with, recovered from the
trace of phase A. -/
def firstRefreshCfg (evs : List Event) : Option RequestConfig :=
  (evs.filterMap (fun e =>
    match e with
    | Event.refreshCall c => some c
    | _ => none)).head?

/-- How the refresh endpoint answers the single in-flight refresh call. -/
inductive RefreshServerOutcome where
  | ok (t : String)
  | httpErr (s : Nat)
  | networkErr
  deriving DecidableEq, Repr

/-- The error value a failed refresh propagates, if the outcome is a
failure. -/
def refreshFailVal : RefreshServerOutcome → Option ErrVal
  | RefreshServerOutcome.ok _ => none
  | RefreshServerOutcome.httpErr s => some (ErrVal.refreshErr (some s))
  | RefreshServerOutcome.networkErr => some (ErrVal.refreshErr none)

/-- Final fate of one burst request: replayed through the pipeline exactly
once with the recorded sent config, rejected with the recorded error, or
still pending (no governing refresh resolved in this run). -/
inductive BurstOutcome where
  | retried (sent : RequestConfig)
  | rejected (e : ErrVal)
  | pending
  deriving DecidableEq, Repr

/-- Result of running a whole burst: per-request outcomes in arrival
order, the final coordinator state, and the side-effect trace. -/
structure BurstResult where
  outcomes : List (Nat × BurstOutcome)
  final : ClientState
  trace : List Event
  deriving DecidableEq, Repr

/-- The sent form of a replayed request once the governing refresh
succeeded with token `t`: the continuation sets
`headers.Authorization = Bearer t`, then `api(originalRequest)` passes
through the request interceptor, which re-reads the store (which holds
`t`). -/
def sentFor (t : String) (cfg : RequestConfig) : RequestConfig :=
  requestInterceptor (some t) { cfg with authHeader := some ("Bearer " ++ t) }

/-- Failure continuation of the initiator (`catch (refreshError)` block),
composed after the refresh request's own rejection has passed through the
response interceptor: `processQueue(refreshError)`, remove the stored
token, show the notification, redirect, reject the initiator, and
`finally { isRefreshing = false }`. -/
def runBurstFail (st1 : ClientState)
    (results : List (Nat × SyncResult × RequestConfig)) (evsA : List Event)
    (ownerId : Nat) (status : Option Nat) : BurstResult :=
  let rc := (firstRefreshCfg evsA).getD refreshBase
  match responseErrorSync st1 ownerId status rc with
  | (_, _, st2, evsR) =>
      let refErr := ErrVal.refreshErr status
      match processQueue (some refErr) none st2.failedQueue with
      | (evsRej, q2) =>
          { outcomes := results.map (fun r =>
              match r.2.1 with
              | SyncResult.rejectOriginal =>
                  (r.1, BurstOutcome.rejected (ErrVal.requestErr r.1 (some 401)))
              | _ => (r.1, BurstOutcome.rejected refErr)),
            final := { isRefreshing := false, failedQueue := q2,
                       accessToken := none },
            trace := evsA ++ evsR ++ evsRej ++
              [Event.storeClear, Event.notify, Event.redirect] }

/-- Success continuation of the initiator (`try` block after the await):
store the new token, `processQueue(null, newToken)`, set the initiator's
header and replay it, `finally { isRefreshing = false }`; then each
resolved waiter's `.then` continuation replays its request in FIFO order,
reading the store afresh through the request interceptor. -/
def runBurstOk (st1 : ClientState)
    (results : List (Nat × SyncResult × RequestConfig)) (evsA : List Event)
    (ownerId : Nat) (ownerCfg : RequestConfig) (t : String) : BurstResult :=
  let stSet : ClientState := { st1 with accessToken := some t }
  match processQueue none (some t) stSet.failedQueue with
  | (evsRes, q2) =>
      let stQ : ClientState := { stSet with failedQueue := q2 }
      let ownerSent := requestInterceptor stQ.accessToken
        { ownerCfg with authHeader := some ("Bearer " ++ t) }
      let waiters := results.filterMap (fun r =>
        if r.2.1 == SyncResult.enqueued then some (r.1, r.2.2) else none)
      let waiterSends := waiters.map (fun w =>
        (w.1, requestInterceptor stQ.accessToken
          { w.2 with authHeader := some ("Bearer " ++ t) }))
      { outcomes := results.map (fun r =>
          match r.2.1 with
          | SyncResult.rejectOriginal =>
              (r.1, BurstOutcome.rejected (ErrVal.requestErr r.1 (some 401)))
          | _ => (r.1, BurstOutcome.retried (requestInterceptor stQ.accessToken
              { r.2.2 with authHeader := some ("Bearer " ++ t) }))),
        final := { stQ with isRefreshing := false },
        trace := evsA ++ Event.storeSet t :: evsRes ++
          Event.replay ownerId ownerSent.authHeader ::
          waiterSends.map (fun w => Event.replay w.1 w.2.authHeader) }

/-- Run a whole burst: every listed request fails with a 401 and its
handler runs (phase A, arrival order); if some request initiated a
refresh, the refresh call settles with outcome `o` — its own rejection
passing back through the response interceptor when it is an HTTP error —
and the continuations run. -/
def runBurst (st0 : ClientState) (reqs : List (Nat × RequestConfig))
    (o : RefreshServerOutcome) : BurstResult :=
  match burstPhaseA st0 reqs with
  | (st1, results, evsA) =>
      match results.find? (fun r => r.2.1 == SyncResult.initiated) with
      | none =>
          { outcomes := results.map (fun r =>
              match r.2.1 with
              | SyncResult.rejectOriginal =>
                  (r.1, BurstOutcome.rejected (ErrVal.requestErr r.1 (some 401)))
              | _ => (r.1, BurstOutcome.pending)),
            final := st1, trace := evsA }
      | some owner =>
          match o with
          | RefreshServerOutcome.ok t =>
              runBurstOk st1 results evsA owner.1 owner.2.2 t
          | RefreshServerOutcome.httpErr s =>
              runBurstFail st1 results evsA owner.1 (some s)
          | RefreshServerOutcome.networkErr =>
              runBurstFail st1 results evsA owner.1 none

/-- A config is "plain" when it is a first-attempt request to an ordinary
endpoint: `_retry` unset and the url mentions neither the login nor the
refresh endpoint. -/
def plainCfg (cfg : RequestConfig) : Bool :=
  !cfg.retry && !urlIncludes cfg.url "/auth/login" &&
    !urlIncludes cfg.url "/auth/refresh"

/-- The idle coordinator state: not refreshing, empty queue, given store. -/
def idleState (tok : Option String) : ClientState :=
  { isRefreshing := false, failedQueue := [], accessToken := tok }

/-- A concrete plain request config used in scenario instantiations. -/
def cfgA : RequestConfig :=
  { url := "/api/a", retry := false, authHeader := none }

/-- A second concrete plain request config. -/
def cfgB : RequestConfig :=
  { url := "/api/b", retry := false, authHeader := none }

/-- A third concrete plain request config. -/
def cfgC : RequestConfig :=
  { url := "/api/c", retry := false, authHeader := none }

/-- A fourth concrete plain request config. -/
def cfgD : RequestConfig :=
  { url := "/api/d", retry := false, authHeader := none }

/-- How many refresh-endpoint calls a trace contains. -/
def refreshCallCount (evs : List Event) : Nat :=
  evs.countP (fun e =>
    match e with
    | Event.refreshCall _ => true
    | _ => false)

/-- How many session-expiry notifications (`notifications.show`) a trace
contains. -/
def notifyCount (evs : List Event) : Nat :=
  evs.countP (fun e => e == Event.notify)

/-- The waiter resolutions in a trace, in order, with the token each
received. -/
def resolvePairs (evs : List Event) : List (Nat × String) :=
  evs.filterMap (fun e =>
    match e with
    | Event.resolveWaiter w t => some (w, t)
    | _ => none)

/-- The waiter rejections in a trace, in order, with the error each
received. -/
def rejectPairs (evs : List Event) : List (Nat × ErrVal) :=
  evs.filterMap (fun e =>
    match e with
    | Event.rejectWaiter w e2 => some (w, e2)
    | _ => none)

/-- The Authorization values of the replayed requests in a trace, in
dispatch order. -/
def replayAuths (evs : List Event) : List (Option String) :=
  evs.filterMap (fun e =>
    match e with
    | Event.replay _ a => some a
    | _ => none)

/-! ### Branch lemmas for the 401 handler -/

theorem plainCfg_spec {cfg : RequestConfig} (h : plainCfg cfg = true) :
    cfg.retry = false ∧ urlIncludes cfg.url "/auth/login" = false ∧
      urlIncludes cfg.url "/auth/refresh" = false := by
  simp only [plainCfg, Bool.and_eq_true, Bool.not_eq_true'] at h
  exact ⟨h.1.1, h.1.2, h.2⟩

/-- A request whose `_retry` marker is set falls through the whole 401
branch: it is rejected with its original error and nothing changes. -/
theorem responseErrorSync_marked (st : ClientState) (wid : Nat)
    (status : Option Nat) (cfg : RequestConfig) (h : cfg.retry = true) :
    responseErrorSync st wid status cfg =
      (SyncResult.rejectOriginal, cfg, st, []) := by
  simp [responseErrorSync, h]

/-- A non-401 outcome (success-path aside, a non-401 HTTP error or a
network error) falls through the whole 401 branch. -/
theorem responseErrorSync_pass (st : ClientState) (wid : Nat)
    (status : Option Nat) (cfg : RequestConfig) (h : status ≠ some 401) :
    responseErrorSync st wid status cfg =
      (SyncResult.rejectOriginal, cfg, st, []) := by
  simp [responseErrorSync, h]

/-- A 401 on a login-endpoint request is rejected immediately, with no
state change and no events, whatever the marker. -/
theorem responseErrorSync_login (st : ClientState) (wid : Nat)
    (cfg : RequestConfig) (h : urlIncludes cfg.url "/auth/login" = true) :
    responseErrorSync st wid (some 401) cfg =
      (SyncResult.rejectOriginal, cfg, st, []) := by
  cases hr : cfg.retry with
  | true => exact responseErrorSync_marked st wid (some 401) cfg hr
  | false => simp [responseErrorSync, h, hr]

/-- A 401 on the refresh request itself clears the store, notifies,
redirects, and rejects with the original error; it is neither enqueued
nor does it dispatch another refresh call. -/
theorem responseErrorSync_refresh (st : ClientState) (wid : Nat)
    (cfg : RequestConfig) (hret : cfg.retry = false)
    (hurl : urlIncludes cfg.url "/auth/refresh" = true)
    (hnl : urlIncludes cfg.url "/auth/login" = false) :
    responseErrorSync st wid (some 401) cfg =
      (SyncResult.rejectOriginal, cfg, { st with accessToken := none },
        [Event.storeClear, Event.notify, Event.redirect]) := by
  simp [responseErrorSync, hret, hurl, hnl]

/-- A 401 on a plain request while a refresh is in flight only pushes the
waiter onto `failedQueue`. -/
theorem responseErrorSync_enqueue (st : ClientState) (wid : Nat)
    (cfg : RequestConfig) (hp : plainCfg cfg = true)
    (hr : st.isRefreshing = true) :
    responseErrorSync st wid (some 401) cfg =
      (SyncResult.enqueued, cfg,
        { st with failedQueue := st.failedQueue ++ [wid] }, []) := by
  obtain ⟨h1, h2, h3⟩ := plainCfg_spec hp
  simp [responseErrorSync, h1, h2, h3, hr]

/-- A 401 on a plain request while idle initiates: `_retry` and
`isRefreshing` are set synchronously before any suspension point, and the
refresh call is dispatched (through the request interceptor). -/
theorem responseErrorSync_initiate (st : ClientState) (wid : Nat)
    (cfg : RequestConfig) (hp : plainCfg cfg = true)
    (hr : st.isRefreshing = false) :
    responseErrorSync st wid (some 401) cfg =
      (SyncResult.initiated, { cfg with retry := true },
        { st with isRefreshing := true },
        [Event.refreshCall (requestInterceptor st.accessToken refreshBase)]) := by
  obtain ⟨h1, h2, h3⟩ := plainCfg_spec hp
  simp [responseErrorSync, h1, h2, h3, hr]

/-! ### The sent form of a replayed request -/

theorem sentFor_auth (t : String) (cfg : RequestConfig) :
    (sentFor t cfg).authHeader = some ("Bearer " ++ t) := by
  by_cases h : t = ""
  · subst h; rfl
  · simp [sentFor, requestInterceptor, h]

theorem sentFor_retry (t : String) (cfg : RequestConfig) :
    (sentFor t cfg).retry = cfg.retry := by
  by_cases h : t = ""
  · subst h; rfl
  · simp [sentFor, requestInterceptor, h]

/-- Prepending the fixed bearer scheme is injective on tokens. -/
theorem bearer_inj {a b : String} (h : "Bearer " ++ a = "Bearer " ++ b) :
    a = b := by
  cases a with
  | mk da =>
    cases b with
    | mk db =>
      have hd : "Bearer ".data ++ da = "Bearer ".data ++ db := by
        have := congrArg String.data h
        simpa [String.data] using this
      exact congrArg String.mk (List.append_cancel_left hd)

/-! ### Phase A of a burst -/

/-- While a refresh is in flight, every further plain 401 is only pushed
onto `failedQueue`, in arrival order, with no other effect. -/
theorem burstPhaseA_enq (pairs : List (Nat × RequestConfig)) :
    ∀ st : ClientState, st.isRefreshing = true →
    (∀ p ∈ pairs, plainCfg p.2 = true) →
    burstPhaseA st pairs =
      ({ st with failedQueue := st.failedQueue ++ pairs.map Prod.fst },
       pairs.map (fun p => (p.1, SyncResult.enqueued, p.2)), []) := by
  induction pairs with
  | nil => intro st hst hp; simp [burstPhaseA]
  | cons a rest ih =>
      intro st hst hp
      obtain ⟨wid, cfg⟩ := a
      rw [burstPhaseA, responseErrorSync_enqueue st wid cfg (hp (wid, cfg) (by simp)) hst]
      have h2 := ih { st with failedQueue := st.failedQueue ++ [wid] } (by simp [hst])
        (fun p hm => hp p (by simp [hm]))
      simp [h2, List.append_assoc]

/-- From the idle state, the first plain 401 of a burst initiates the
single refresh and every later one is enqueued in arrival order. -/
theorem burstPhaseA_idle (tok : Option String) (i0 : Nat) (c0 : RequestConfig)
    (rest : List (Nat × RequestConfig)) (h0 : plainCfg c0 = true)
    (hr : ∀ p ∈ rest, plainCfg p.2 = true) :
    burstPhaseA (idleState tok) ((i0, c0) :: rest) =
      ({ isRefreshing := true, failedQueue := rest.map Prod.fst,
         accessToken := tok },
       (i0, SyncResult.initiated, { c0 with retry := true }) ::
         rest.map (fun p => (p.1, SyncResult.enqueued, p.2)),
       [Event.refreshCall (requestInterceptor tok refreshBase)]) := by
  rw [burstPhaseA, responseErrorSync_initiate (idleState tok) i0 c0 h0 rfl]
  have henq := burstPhaseA_enq rest
    { isRefreshing := true, failedQueue := [], accessToken := tok } rfl hr
  simp [idleState, henq]

/-! ### The dispatched refresh config -/

theorem refreshCfg_url (tok : Option String) :
    (requestInterceptor tok refreshBase).url = "/auth/refresh" := by
  cases tok with
  | none => rfl
  | some tk =>
      by_cases h : tk = "" <;> simp [requestInterceptor, refreshBase, h]

theorem refreshCfg_retry (tok : Option String) :
    (requestInterceptor tok refreshBase).retry = false := by
  cases tok with
  | none => rfl
  | some tk =>
      by_cases h : tk = "" <;> simp [requestInterceptor, refreshBase, h]

/-! ### Master characterization of a burst -/

/-- Collecting the enqueued members of an all-enqueued result list gives
back exactly the arrival list. -/
theorem filterMap_enq (rest : List (Nat × RequestConfig)) :
    List.filterMap
      (fun r => if r.2.1 == SyncResult.enqueued then some (r.1, r.2.2) else none)
      (rest.map (fun p => (p.1, SyncResult.enqueued, p.2))) = rest := by
  induction rest with
  | nil => rfl
  | cons a l ih =>
      simp only [List.map_cons, List.filterMap_cons]
      simpa [-List.filterMap_map] using ih

/-- A burst whose refresh succeeds with token `t`: the token is stored,
every waiter is resolved with it in FIFO arrival order, and every request
is replayed carrying `Bearer t`. -/
theorem runBurst_ok_eq (tok : Option String) (i0 : Nat) (c0 : RequestConfig)
    (rest : List (Nat × RequestConfig)) (t : String)
    (h0 : plainCfg c0 = true) (hr : ∀ p ∈ rest, plainCfg p.2 = true) :
    runBurst (idleState tok) ((i0, c0) :: rest) (RefreshServerOutcome.ok t) =
      { outcomes :=
          (i0, BurstOutcome.retried (sentFor t { c0 with retry := true })) ::
            rest.map (fun p => (p.1, BurstOutcome.retried (sentFor t p.2))),
        final := { isRefreshing := false, failedQueue := [],
                   accessToken := some t },
        trace := Event.refreshCall (requestInterceptor tok refreshBase) ::
          Event.storeSet t ::
          (rest.map (fun p => Event.resolveWaiter p.1 t) ++
            Event.replay i0 (sentFor t { c0 with retry := true }).authHeader ::
            rest.map (fun p => Event.replay p.1 (sentFor t p.2).authHeader)) } := by
  rw [runBurst, burstPhaseA_idle tok i0 c0 rest h0 hr]
  have hfind : List.find? (fun r => r.2.1 == SyncResult.initiated)
      ((i0, SyncResult.initiated, { c0 with retry := true }) ::
        rest.map (fun p => (p.1, SyncResult.enqueued, p.2))) =
      some (i0, SyncResult.initiated, { c0 with retry := true }) :=
    List.find?_cons_of_pos _ (by rfl)
  simp [hfind, runBurstOk, processQueue, sentFor, filterMap_enq,
    List.map_map, Function.comp_def]

/-- A burst whose refresh call is itself answered with a 401: the refresh
request's rejection runs through the response interceptor (session-expiry
branch) before the initiator's catch block, so the store is cleared and
the notifier fires twice; every waiter and the initiator reject with the
refresh failure. -/
theorem runBurst_fail401_eq (tok : Option String) (i0 : Nat)
    (c0 : RequestConfig) (rest : List (Nat × RequestConfig))
    (h0 : plainCfg c0 = true) (hr : ∀ p ∈ rest, plainCfg p.2 = true) :
    runBurst (idleState tok) ((i0, c0) :: rest)
        (RefreshServerOutcome.httpErr 401) =
      { outcomes :=
          (i0, BurstOutcome.rejected (ErrVal.refreshErr (some 401))) ::
            rest.map (fun p =>
              (p.1, BurstOutcome.rejected (ErrVal.refreshErr (some 401)))),
        final := { isRefreshing := false, failedQueue := [],
                   accessToken := none },
        trace := Event.refreshCall (requestInterceptor tok refreshBase) ::
          Event.storeClear :: Event.notify :: Event.redirect ::
          (rest.map (fun p =>
              Event.rejectWaiter p.1 (ErrVal.refreshErr (some 401))) ++
            [Event.storeClear, Event.notify, Event.redirect]) } := by
  rw [runBurst, burstPhaseA_idle tok i0 c0 rest h0 hr]
  have hfind : List.find? (fun r => r.2.1 == SyncResult.initiated)
      ((i0, SyncResult.initiated, { c0 with retry := true }) ::
        rest.map (fun p => (p.1, SyncResult.enqueued, p.2))) =
      some (i0, SyncResult.initiated, { c0 with retry := true }) :=
    List.find?_cons_of_pos _ (by rfl)
  have hre := responseErrorSync_refresh
    { isRefreshing := true, failedQueue := rest.map Prod.fst,
      accessToken := tok } i0
    (requestInterceptor tok refreshBase) (refreshCfg_retry tok)
    (by rw [refreshCfg_url]; decide) (by rw [refreshCfg_url]; decide)
  simp [hfind, runBurstFail, firstRefreshCfg, hre, processQueue,
    List.map_map, Function.comp_def]

/-- A burst whose refresh call fails with a network error or a non-401
HTTP error: the rejection passes the response interceptor untouched, so
the catch block's effects happen exactly once. -/
theorem runBurst_failpass_eq (tok : Option String) (i0 : Nat)
    (c0 : RequestConfig) (rest : List (Nat × RequestConfig))
    (o : RefreshServerOutcome) (e : ErrVal)
    (h0 : plainCfg c0 = true) (hr : ∀ p ∈ rest, plainCfg p.2 = true)
    (ho : refreshFailVal o = some e)
    (hne : o ≠ RefreshServerOutcome.httpErr 401) :
    runBurst (idleState tok) ((i0, c0) :: rest) o =
      { outcomes := (i0, BurstOutcome.rejected e) ::
          rest.map (fun p => (p.1, BurstOutcome.rejected e)),
        final := { isRefreshing := false, failedQueue := [],
                   accessToken := none },
        trace := Event.refreshCall (requestInterceptor tok refreshBase) ::
          (rest.map (fun p => Event.rejectWaiter p.1 e) ++
            [Event.storeClear, Event.notify, Event.redirect]) } := by
  have hfind : List.find? (fun r => r.2.1 == SyncResult.initiated)
      ((i0, SyncResult.initiated, { c0 with retry := true }) ::
        rest.map (fun p => (p.1, SyncResult.enqueued, p.2))) =
      some (i0, SyncResult.initiated, { c0 with retry := true }) :=
    List.find?_cons_of_pos _ (by rfl)
  cases o with
  | ok t => simp [refreshFailVal] at ho
  | httpErr s =>
      have hs : (some s : Option Nat) ≠ some 401 := by
        intro h
        exact hne (by simp_all)
      have he : e = ErrVal.refreshErr (some s) := by
        simpa [refreshFailVal] using ho.symm
      subst he
      rw [runBurst, burstPhaseA_idle tok i0 c0 rest h0 hr]
      have hpass := responseErrorSync_pass
        { isRefreshing := true, failedQueue := rest.map Prod.fst,
          accessToken := tok } i0 (some s)
        (requestInterceptor tok refreshBase) hs
      simp [hfind, runBurstFail, firstRefreshCfg, hpass, processQueue,
        List.map_map, Function.comp_def]
  | networkErr =>
      have he : e = ErrVal.refreshErr none := by
        simpa [refreshFailVal] using ho.symm
      subst he
      rw [runBurst, burstPhaseA_idle tok i0 c0 rest h0 hr]
      have hpass := responseErrorSync_pass
        { isRefreshing := true, failedQueue := rest.map Prod.fst,
          accessToken := tok } i0 none
        (requestInterceptor tok refreshBase) (by simp)
      simp [hfind, runBurstFail, firstRefreshCfg, hpass, processQueue,
        List.map_map, Function.comp_def]

/-! ### Trace accounting helpers -/

theorem filterMap_some_eq_map {α β : Type} (f : α → β) (l : List α) :
    List.filterMap (fun a => some (f a)) l = l.map f := by
  induction l with
  | nil => rfl
  | cons a l ih =>
      rw [List.filterMap_cons, List.map_cons, ih]

theorem filterMap_none_eq_nil {α β : Type} (f : α → Option β) (l : List α)
    (h : ∀ a ∈ l, f a = none) : List.filterMap f l = [] := by
  induction l with
  | nil => rfl
  | cons a l ih =>
      rw [List.filterMap_cons, h a (by simp)]
      exact ih (fun a ha => h a (by simp [ha]))

/-! ### Claims C7, C8, C9, C10 -/

/-- Claim C7: for every request to the refresh endpoint itself that
receives a 401, the failure is terminal refresh failure: the stored
credential is removed and the original error is propagated, without
enqueueing the request onto `failedQueue` and without dispatching a
further refresh call (a refresh is never recursively refreshed). -/
theorem c7_refresh_never_recursed (st : ClientState) (wid : Nat)
    (cfg : RequestConfig) (hret : cfg.retry = false)
    (hurl : urlIncludes cfg.url "/auth/refresh" = true)
    (hnl : urlIncludes cfg.url "/auth/login" = false) :
    responseErrorSync st wid (some 401) cfg =
      (SyncResult.rejectOriginal, cfg, { st with accessToken := none },
        [Event.storeClear, Event.notify, Event.redirect]) :=
  responseErrorSync_refresh st wid cfg hret hurl hnl

/-- Witness for C7 at the dispatched refresh config and a store holding
a credential. -/
theorem c7_refresh_never_recursed_witness :
    (refreshBase.retry = false ∧
      urlIncludes refreshBase.url "/auth/refresh" = true ∧
      urlIncludes refreshBase.url "/auth/login" = false) ∧
    responseErrorSync (idleState (some "C1")) 0 (some 401) refreshBase =
      (SyncResult.rejectOriginal, refreshBase,
        { isRefreshing := false, failedQueue := [], accessToken := none },
        [Event.storeClear, Event.notify, Event.redirect]) :=
  ⟨by decide, c7_refresh_never_recursed (idleState (some "C1")) 0 refreshBase
    (by decide) (by decide) (by decide)⟩

/-- Claim C8: for every request to the login endpoint that receives a 401,
the pipeline propagates the failure immediately: the handler returns
`Promise.reject(error)` with no state change, no enqueueing, and no
refresh call, whatever the retry marker. -/
theorem c8_login_never_refreshes (st : ClientState) (wid : Nat)
    (cfg : RequestConfig) (hurl : urlIncludes cfg.url "/auth/login" = true) :
    responseErrorSync st wid (some 401) cfg =
      (SyncResult.rejectOriginal, cfg, st, []) :=
  responseErrorSync_login st wid cfg hurl

/-- Witness for C8 at the login config with a refresh already in flight. -/
theorem c8_login_never_refreshes_witness :
    urlIncludes "/auth/login" "/auth/login" = true ∧
    responseErrorSync
        { isRefreshing := true, failedQueue := [7], accessToken := some "T" }
        9 (some 401)
        { url := "/auth/login", retry := false, authHeader := none } =
      (SyncResult.rejectOriginal,
        { url := "/auth/login", retry := false, authHeader := none },
        { isRefreshing := true, failedQueue := [7], accessToken := some "T" },
        []) :=
  ⟨by decide, c8_login_never_refreshes
    { isRefreshing := true, failedQueue := [7], accessToken := some "T" } 9
    { url := "/auth/login", retry := false, authHeader := none } (by decide)⟩

/-- Claim C9: a success passes through the fulfilled interceptor verbatim,
and any response that is not a 401 — a non-401 HTTP error or a network
error with no response — is rejected unchanged with the original error,
with `isRefreshing`, `failedQueue` and the stored credential untouched. -/
theorem c9_non401_pass_through (st : ClientState) (wid : Nat)
    (status : Option Nat) (cfg : RequestConfig) (resp : RequestConfig × Nat)
    (h : status ≠ some 401) :
    responseFulfilled resp = resp ∧
    responseErrorSync st wid status cfg =
      (SyncResult.rejectOriginal, cfg, st, []) :=
  ⟨rfl, responseErrorSync_pass st wid status cfg h⟩

/-- Witness for C9 at a 500 error with a populated coordinator state. -/
theorem c9_non401_pass_through_witness :
    (some 500 : Option Nat) ≠ some 401 ∧
    (responseFulfilled ({ url := "/api/a", retry := false, authHeader := none }, 200) =
        ({ url := "/api/a", retry := false, authHeader := none }, 200) ∧
      responseErrorSync
          { isRefreshing := true, failedQueue := [3], accessToken := some "T" }
          4 (some 500) { url := "/api/a", retry := false, authHeader := none } =
        (SyncResult.rejectOriginal,
          { url := "/api/a", retry := false, authHeader := none },
          { isRefreshing := true, failedQueue := [3], accessToken := some "T" },
          [])) :=
  ⟨by decide, c9_non401_pass_through
    { isRefreshing := true, failedQueue := [3], accessToken := some "T" } 4
    (some 500) { url := "/api/a", retry := false, authHeader := none }
    ({ url := "/api/a", retry := false, authHeader := none }, 200) (by decide)⟩

/-- Claim C10: a login request rejected with a 401 rejects with the
original error object (`rejectOriginal`, config untouched) and mutates no
shared state: the stored credential is kept, `isRefreshing` and
`failedQueue` are unchanged, and no notification, store-clear or redirect
event is emitted — a wrong password does not log the user out. -/
theorem c10_login_frame (st : ClientState) (wid : Nat) (cfg : RequestConfig)
    (hurl : urlIncludes cfg.url "/auth/login" = true) :
    (responseErrorSync st wid (some 401) cfg).1 = SyncResult.rejectOriginal ∧
    (responseErrorSync st wid (some 401) cfg).2.1 = cfg ∧
    (responseErrorSync st wid (some 401) cfg).2.2.1.accessToken = st.accessToken ∧
    (responseErrorSync st wid (some 401) cfg).2.2.1.isRefreshing = st.isRefreshing ∧
    (responseErrorSync st wid (some 401) cfg).2.2.1.failedQueue = st.failedQueue ∧
    (responseErrorSync st wid (some 401) cfg).2.2.2 = [] := by
  have h := responseErrorSync_login st wid cfg hurl
  simp [h]

/-- Witness for C10 at a login config with a credential in the store. -/
theorem c10_login_frame_witness :
    urlIncludes "/auth/login" "/auth/login" = true ∧
    ((responseErrorSync (idleState (some "KEEP")) 2 (some 401)
        { url := "/auth/login", retry := false, authHeader := none }).1 =
          SyncResult.rejectOriginal ∧
      (responseErrorSync (idleState (some "KEEP")) 2 (some 401)
        { url := "/auth/login", retry := false, authHeader := none }).2.1 =
          { url := "/auth/login", retry := false, authHeader := none } ∧
      (responseErrorSync (idleState (some "KEEP")) 2 (some 401)
        { url := "/auth/login", retry := false, authHeader := none }).2.2.1.accessToken =
          (idleState (some "KEEP")).accessToken ∧
      (responseErrorSync (idleState (some "KEEP")) 2 (some 401)
        { url := "/auth/login", retry := false, authHeader := none }).2.2.1.isRefreshing =
          (idleState (some "KEEP")).isRefreshing ∧
      (responseErrorSync (idleState (some "KEEP")) 2 (some 401)
        { url := "/auth/login", retry := false, authHeader := none }).2.2.1.failedQueue =
          (idleState (some "KEEP")).failedQueue ∧
      (responseErrorSync (idleState (some "KEEP")) 2 (some 401)
        { url := "/auth/login", retry := false, authHeader := none }).2.2.2 = []) :=
  ⟨by decide, c10_login_frame (idleState (some "KEEP")) 2
    { url := "/auth/login", retry := false, authHeader := none } (by decide)⟩

theorem countP_map_zero {α β : Type} (p : β → Bool) (f : α → β)
    (l : List α) (h : ∀ a, p (f a) = false) :
    List.countP p (l.map f) = 0 := by
  induction l with
  | nil => rfl
  | cons a l ih => simp [List.countP_cons, h a, ih]

/-! ### Claim C1 -/

/-- Claim C1: for every burst of N >= 1 logically concurrent requests that
each receive a 401 while `isRefreshing` is false, exactly one call is made
to the refresh endpoint — the first 401 initiates, every later one is only
queued — and all N requests receive the outcome of that single refresh
call: on success each is replayed with the new bearer token, on failure
each is rejected with the one refresh failure. -/
theorem c1_single_flight (tok : Option String) (i0 : Nat)
    (c0 : RequestConfig) (rest : List (Nat × RequestConfig))
    (o : RefreshServerOutcome)
    (h0 : plainCfg c0 = true) (hr : ∀ p ∈ rest, plainCfg p.2 = true) :
    refreshCallCount (runBurst (idleState tok) ((i0, c0) :: rest) o).trace = 1 ∧
    (runBurst (idleState tok) ((i0, c0) :: rest) o).outcomes.length =
      rest.length + 1 ∧
    (∀ t, o = RefreshServerOutcome.ok t →
      ∀ p ∈ (runBurst (idleState tok) ((i0, c0) :: rest) o).outcomes,
        ∃ sent, p.2 = BurstOutcome.retried sent ∧
          sent.authHeader = some ("Bearer " ++ t)) ∧
    (∀ e, refreshFailVal o = some e →
      ∀ p ∈ (runBurst (idleState tok) ((i0, c0) :: rest) o).outcomes,
        p.2 = BurstOutcome.rejected e) := by
  cases o with
  | ok t =>
      rw [runBurst_ok_eq tok i0 c0 rest t h0 hr]
      refine ⟨?_, by simp, ?_, ?_⟩
      · have h1 := countP_map_zero
          (fun e => match e with | Event.refreshCall _ => true | _ => false)
          (fun p : Nat × RequestConfig => Event.resolveWaiter p.1 t) rest
          (fun a => rfl)
        have h2 := countP_map_zero
          (fun e => match e with | Event.refreshCall _ => true | _ => false)
          (fun p : Nat × RequestConfig =>
            Event.replay p.1 (sentFor t p.2).authHeader) rest
          (fun a => rfl)
        simp [refreshCallCount, List.countP_cons, List.countP_append, h1, h2]
      · intro t2 ht2 p hp
        obtain rfl : t = t2 := by injection ht2
        rcases List.mem_cons.mp hp with h | h
        · subst h
          exact ⟨_, rfl, sentFor_auth t _⟩
        · obtain ⟨q, hq, rfl⟩ := List.mem_map.mp h
          exact ⟨_, rfl, sentFor_auth t _⟩
      · intro e he
        simp [refreshFailVal] at he
  | httpErr s =>
      by_cases hs : s = 401
      · subst hs
        rw [runBurst_fail401_eq tok i0 c0 rest h0 hr]
        refine ⟨?_, by simp, ?_, ?_⟩
        · have h1 := countP_map_zero
            (fun e => match e with | Event.refreshCall _ => true | _ => false)
            (fun p : Nat × RequestConfig =>
              Event.rejectWaiter p.1 (ErrVal.refreshErr (some 401))) rest
            (fun a => rfl)
          simp [refreshCallCount, List.countP_cons, List.countP_append, h1]
        · intro t2 ht2
          exact absurd ht2 (by simp)
        · intro e he p hp
          obtain rfl : e = ErrVal.refreshErr (some 401) := by
            simpa [refreshFailVal] using he.symm
          rcases List.mem_cons.mp hp with h | h
          · subst h; rfl
          · obtain ⟨q, hq, rfl⟩ := List.mem_map.mp h
            rfl
      · rw [runBurst_failpass_eq tok i0 c0 rest (RefreshServerOutcome.httpErr s)
            (ErrVal.refreshErr (some s)) h0 hr (by simp [refreshFailVal])
            (by simp [hs])]
        refine ⟨?_, by simp, ?_, ?_⟩
        · have h1 := countP_map_zero
            (fun e => match e with | Event.refreshCall _ => true | _ => false)
            (fun p : Nat × RequestConfig =>
              Event.rejectWaiter p.1 (ErrVal.refreshErr (some s))) rest
            (fun a => rfl)
          simp [refreshCallCount, List.countP_cons, List.countP_append, h1]
        · intro t2 ht2
          exact absurd ht2 (by simp)
        · intro e he p hp
          obtain rfl : e = ErrVal.refreshErr (some s) := by
            simpa [refreshFailVal] using he.symm
          rcases List.mem_cons.mp hp with h | h
          · subst h; rfl
          · obtain ⟨q, hq, rfl⟩ := List.mem_map.mp h
            rfl
  | networkErr =>
      rw [runBurst_failpass_eq tok i0 c0 rest RefreshServerOutcome.networkErr
          (ErrVal.refreshErr none) h0 hr (by simp [refreshFailVal]) (by simp)]
      refine ⟨?_, by simp, ?_, ?_⟩
      · have h1 := countP_map_zero
          (fun e => match e with | Event.refreshCall _ => true | _ => false)
          (fun p : Nat × RequestConfig =>
            Event.rejectWaiter p.1 (ErrVal.refreshErr none)) rest
          (fun a => rfl)
        simp [refreshCallCount, List.countP_cons, List.countP_append, h1]
      · intro t2 ht2
        exact absurd ht2 (by simp)
      · intro e he p hp
        obtain rfl : e = ErrVal.refreshErr none := by
          simpa [refreshFailVal] using he.symm
        rcases List.mem_cons.mp hp with h | h
        · subst h; rfl
        · obtain ⟨q, hq, rfl⟩ := List.mem_map.mp h
          rfl

/-- Witness for C1: a 3-request burst from a stored credential, refresh
succeeding with a new token. -/
theorem c1_single_flight_witness :
    (plainCfg cfgA = true ∧
      ∀ p ∈ [(1, cfgB), (2, cfgC)], plainCfg p.2 = true) ∧
    (refreshCallCount (runBurst (idleState (some "C1"))
        ((0, cfgA) :: [(1, cfgB), (2, cfgC)])
        (RefreshServerOutcome.ok "C2")).trace = 1 ∧
      (runBurst (idleState (some "C1")) ((0, cfgA) :: [(1, cfgB), (2, cfgC)])
        (RefreshServerOutcome.ok "C2")).outcomes.length =
        [(1, cfgB), (2, cfgC)].length + 1 ∧
      (∀ t, RefreshServerOutcome.ok "C2" = RefreshServerOutcome.ok t →
        ∀ p ∈ (runBurst (idleState (some "C1"))
            ((0, cfgA) :: [(1, cfgB), (2, cfgC)])
            (RefreshServerOutcome.ok "C2")).outcomes,
          ∃ sent, p.2 = BurstOutcome.retried sent ∧
            sent.authHeader = some ("Bearer " ++ t)) ∧
      (∀ e, refreshFailVal (RefreshServerOutcome.ok "C2") = some e →
        ∀ p ∈ (runBurst (idleState (some "C1"))
            ((0, cfgA) :: [(1, cfgB), (2, cfgC)])
            (RefreshServerOutcome.ok "C2")).outcomes,
          p.2 = BurstOutcome.rejected e)) :=
  ⟨⟨by decide, by decide⟩,
    c1_single_flight (some "C1") 0 cfgA [(1, cfgB), (2, cfgC)]
      (RefreshServerOutcome.ok "C2") (by decide) (by decide)⟩

theorem filterMap_map_eq_nil {α β γ : Type} (g : β → Option γ) (f : α → β)
    (l : List α) (h : ∀ a, g (f a) = none) :
    List.filterMap g (l.map f) = [] := by
  induction l with
  | nil => rfl
  | cons a l ih => rw [List.map_cons, List.filterMap_cons, h a, ih]

theorem filterMap_map_eq_map {α β γ : Type} (g : β → Option γ) (f : α → β)
    (k : α → γ) (l : List α) (h : ∀ a, g (f a) = some (k a)) :
    List.filterMap g (l.map f) = l.map k := by
  induction l with
  | nil => rfl
  | cons a l ih => rw [List.map_cons, List.filterMap_cons, h a, List.map_cons, ih]

/-! ### Claim C5 -/

/-- Claim C5: when the refresh call fails, every queued waiter is rejected
with the refresh failure itself — never with its own original 401 —, the
credential store ends empty, the coordinator returns to idle with an empty
queue, the failure is propagated to the initiator, and no queued member is
individually replayed. -/
theorem c5_refresh_failure_cleanup (tok : Option String) (i0 : Nat)
    (c0 : RequestConfig) (rest : List (Nat × RequestConfig))
    (o : RefreshServerOutcome) (e : ErrVal)
    (h0 : plainCfg c0 = true) (hr : ∀ p ∈ rest, plainCfg p.2 = true)
    (ho : refreshFailVal o = some e) :
    rejectPairs (runBurst (idleState tok) ((i0, c0) :: rest) o).trace =
      rest.map (fun p => (p.1, e)) ∧
    (∀ w s2, e ≠ ErrVal.requestErr w s2) ∧
    (runBurst (idleState tok) ((i0, c0) :: rest) o).outcomes.head? =
      some (i0, BurstOutcome.rejected e) ∧
    (runBurst (idleState tok) ((i0, c0) :: rest) o).final.accessToken = none ∧
    (runBurst (idleState tok) ((i0, c0) :: rest) o).final.isRefreshing = false ∧
    (runBurst (idleState tok) ((i0, c0) :: rest) o).final.failedQueue = [] ∧
    replayAuths (runBurst (idleState tok) ((i0, c0) :: rest) o).trace = [] := by
  cases o with
  | ok t => simp [refreshFailVal] at ho
  | httpErr s =>
      obtain rfl : e = ErrVal.refreshErr (some s) := by
        simpa [refreshFailVal] using ho.symm
      by_cases hs : s = 401
      · subst hs
        rw [runBurst_fail401_eq tok i0 c0 rest h0 hr]
        have h1 := filterMap_map_eq_map
          (fun ev => match ev with
            | Event.rejectWaiter w e2 => some (w, e2)
            | _ => none)
          (fun p : Nat × RequestConfig =>
            Event.rejectWaiter p.1 (ErrVal.refreshErr (some 401)))
          (fun p => (p.1, ErrVal.refreshErr (some 401))) rest (fun a => rfl)
        have h2 := filterMap_map_eq_nil
          (fun ev => match ev with
            | Event.replay w a => some a
            | _ => none)
          (fun p : Nat × RequestConfig =>
            Event.rejectWaiter p.1 (ErrVal.refreshErr (some 401)))
          rest (fun a => rfl)
        refine ⟨?_, fun w s2 h => absurd h (by simp), rfl, rfl, rfl, rfl, ?_⟩
        · simp [rejectPairs, List.filterMap_cons, List.filterMap_append, h1]
        · simp [replayAuths, List.filterMap_cons, List.filterMap_append, h2]
      · rw [runBurst_failpass_eq tok i0 c0 rest (RefreshServerOutcome.httpErr s)
            (ErrVal.refreshErr (some s)) h0 hr (by simp [refreshFailVal])
            (by simp [hs])]
        have h1 := filterMap_map_eq_map
          (fun ev => match ev with
            | Event.rejectWaiter w e2 => some (w, e2)
            | _ => none)
          (fun p : Nat × RequestConfig =>
            Event.rejectWaiter p.1 (ErrVal.refreshErr (some s)))
          (fun p => (p.1, ErrVal.refreshErr (some s))) rest (fun a => rfl)
        have h2 := filterMap_map_eq_nil
          (fun ev => match ev with
            | Event.replay w a => some a
            | _ => none)
          (fun p : Nat × RequestConfig =>
            Event.rejectWaiter p.1 (ErrVal.refreshErr (some s)))
          rest (fun a => rfl)
        refine ⟨?_, fun w s2 h => absurd h (by simp), rfl, rfl, rfl, rfl, ?_⟩
        · simp [rejectPairs, List.filterMap_cons, List.filterMap_append, h1]
        · simp [replayAuths, List.filterMap_cons, List.filterMap_append, h2]
  | networkErr =>
      obtain rfl : e = ErrVal.refreshErr none := by
        simpa [refreshFailVal] using ho.symm
      rw [runBurst_failpass_eq tok i0 c0 rest RefreshServerOutcome.networkErr
          (ErrVal.refreshErr none) h0 hr (by simp [refreshFailVal]) (by simp)]
      have h1 := filterMap_map_eq_map
        (fun ev => match ev with
          | Event.rejectWaiter w e2 => some (w, e2)
          | _ => none)
        (fun p : Nat × RequestConfig =>
          Event.rejectWaiter p.1 (ErrVal.refreshErr none))
        (fun p => (p.1, ErrVal.refreshErr none)) rest (fun a => rfl)
      have h2 := filterMap_map_eq_nil
        (fun ev => match ev with
          | Event.replay w a => some a
          | _ => none)
        (fun p : Nat × RequestConfig =>
          Event.rejectWaiter p.1 (ErrVal.refreshErr none))
        rest (fun a => rfl)
      refine ⟨?_, fun w s2 h => absurd h (by simp), rfl, rfl, rfl, rfl, ?_⟩
      · simp [rejectPairs, List.filterMap_cons, List.filterMap_append, h1]
      · simp [replayAuths, List.filterMap_cons, List.filterMap_append, h2]

/-- Witness for C5: initiator plus three queued requests, refresh failing
with a network error. -/
theorem c5_refresh_failure_cleanup_witness :
    (plainCfg cfgA = true ∧
      (∀ p ∈ [(1, cfgB), (2, cfgC), (3, cfgD)], plainCfg p.2 = true) ∧
      refreshFailVal RefreshServerOutcome.networkErr =
        some (ErrVal.refreshErr none)) ∧
    (rejectPairs (runBurst (idleState (some "C1"))
        ((0, cfgA) :: [(1, cfgB), (2, cfgC), (3, cfgD)])
        RefreshServerOutcome.networkErr).trace =
      [(1, cfgB), (2, cfgC), (3, cfgD)].map
        (fun p => (p.1, ErrVal.refreshErr none)) ∧
    (∀ w s2, ErrVal.refreshErr none ≠ ErrVal.requestErr w s2) ∧
    (runBurst (idleState (some "C1"))
        ((0, cfgA) :: [(1, cfgB), (2, cfgC), (3, cfgD)])
        RefreshServerOutcome.networkErr).outcomes.head? =
      some (0, BurstOutcome.rejected (ErrVal.refreshErr none)) ∧
    (runBurst (idleState (some "C1"))
        ((0, cfgA) :: [(1, cfgB), (2, cfgC), (3, cfgD)])
        RefreshServerOutcome.networkErr).final.accessToken = none ∧
    (runBurst (idleState (some "C1"))
        ((0, cfgA) :: [(1, cfgB), (2, cfgC), (3, cfgD)])
        RefreshServerOutcome.networkErr).final.isRefreshing = false ∧
    (runBurst (idleState (some "C1"))
        ((0, cfgA) :: [(1, cfgB), (2, cfgC), (3, cfgD)])
        RefreshServerOutcome.networkErr).final.failedQueue = [] ∧
    replayAuths (runBurst (idleState (some "C1"))
        ((0, cfgA) :: [(1, cfgB), (2, cfgC), (3, cfgD)])
        RefreshServerOutcome.networkErr).trace = []) :=
  ⟨⟨by decide, by decide, by decide⟩,
    c5_refresh_failure_cleanup (some "C1") 0 cfgA
      [(1, cfgB), (2, cfgC), (3, cfgD)] RefreshServerOutcome.networkErr
      (ErrVal.refreshErr none) (by decide) (by decide) (by decide)⟩

/-! ### Claim C6 -/

/-- Claim C6: if the refresh succeeds with a new credential while the
store previously held an old one, the new credential is stored before any
waiter is released (the store-set event precedes every waiter
resolution), every queued waiter is resolved in FIFO arrival order with
the new credential, and every replayed request carries the new bearer
value, never the old one. -/
theorem c6_fifo_new_token (cOld cNew : String) (i0 : Nat)
    (c0 : RequestConfig) (rest : List (Nat × RequestConfig))
    (h0 : plainCfg c0 = true) (hr : ∀ p ∈ rest, plainCfg p.2 = true)
    (hne : cOld ≠ cNew) :
    (∃ pre post,
      (runBurst (idleState (some cOld)) ((i0, c0) :: rest)
          (RefreshServerOutcome.ok cNew)).trace =
        pre ++ Event.storeSet cNew :: post ∧ resolvePairs pre = []) ∧
    resolvePairs (runBurst (idleState (some cOld)) ((i0, c0) :: rest)
        (RefreshServerOutcome.ok cNew)).trace =
      rest.map (fun p => (p.1, cNew)) ∧
    (∀ p ∈ (runBurst (idleState (some cOld)) ((i0, c0) :: rest)
        (RefreshServerOutcome.ok cNew)).outcomes,
      ∃ sent, p.2 = BurstOutcome.retried sent ∧
        sent.authHeader = some ("Bearer " ++ cNew) ∧
        sent.authHeader ≠ some ("Bearer " ++ cOld)) := by
  rw [runBurst_ok_eq (some cOld) i0 c0 rest cNew h0 hr]
  have hneq : ∀ cfg2 : RequestConfig,
      (sentFor cNew cfg2).authHeader ≠ some ("Bearer " ++ cOld) := by
    intro cfg2 h
    rw [sentFor_auth] at h
    have hb : "Bearer " ++ cNew = "Bearer " ++ cOld := by injection h
    exact hne (bearer_inj hb).symm
  refine ⟨⟨[Event.refreshCall (requestInterceptor (some cOld) refreshBase)],
    _, rfl, rfl⟩, ?_, ?_⟩
  · have h1 := filterMap_map_eq_map
      (fun ev => match ev with
        | Event.resolveWaiter w t2 => some (w, t2)
        | _ => none)
      (fun p : Nat × RequestConfig => Event.resolveWaiter p.1 cNew)
      (fun p => (p.1, cNew)) rest (fun a => rfl)
    have h2 := filterMap_map_eq_nil
      (fun ev => match ev with
        | Event.resolveWaiter w t2 => some (w, t2)
        | _ => none)
      (fun p : Nat × RequestConfig =>
        Event.replay p.1 (sentFor cNew p.2).authHeader)
      rest (fun a => rfl)
    simp [resolvePairs, List.filterMap_cons, List.filterMap_append, h1, h2]
  · intro p hp
    rcases List.mem_cons.mp hp with h | h
    · subst h
      exact ⟨_, rfl, sentFor_auth cNew _, hneq _⟩
    · obtain ⟨q, hq, rfl⟩ := List.mem_map.mp h
      exact ⟨_, rfl, sentFor_auth cNew _, hneq _⟩

/-- Witness for C6: a 3-request burst, store holding C1, refresh
succeeding with C2. -/
theorem c6_fifo_new_token_witness :
    (plainCfg cfgA = true ∧
      (∀ p ∈ [(1, cfgB), (2, cfgC)], plainCfg p.2 = true) ∧
      "C1" ≠ "C2") ∧
    ((∃ pre post,
      (runBurst (idleState (some "C1")) ((0, cfgA) :: [(1, cfgB), (2, cfgC)])
          (RefreshServerOutcome.ok "C2")).trace =
        pre ++ Event.storeSet "C2" :: post ∧ resolvePairs pre = []) ∧
    resolvePairs (runBurst (idleState (some "C1"))
        ((0, cfgA) :: [(1, cfgB), (2, cfgC)])
        (RefreshServerOutcome.ok "C2")).trace =
      [(1, cfgB), (2, cfgC)].map (fun p => (p.1, "C2")) ∧
    (∀ p ∈ (runBurst (idleState (some "C1"))
        ((0, cfgA) :: [(1, cfgB), (2, cfgC)])
        (RefreshServerOutcome.ok "C2")).outcomes,
      ∃ sent, p.2 = BurstOutcome.retried sent ∧
        sent.authHeader = some ("Bearer " ++ "C2") ∧
        sent.authHeader ≠ some ("Bearer " ++ "C1"))) :=
  ⟨⟨by decide, by decide, by decide⟩,
    c6_fifo_new_token "C1" "C2" 0 cfgA [(1, cfgB), (2, cfgC)]
      (by decide) (by decide) (by decide)⟩

/-! ### Claim C2 (corrected) -/

/-- Claim C2 counterexample: in a two-request burst whose refresh
succeeds, the queued request is replayed with its `_retry` marker still
unset — only the initiator is marked — and a second 401 on that same
replayed logical request initiates a second refresh call.  So a single
logical request replayed from the pending queue can cause a second
refresh, against the claim. -/
theorem c2_counterexample :
    (runBurst (idleState (some "C1")) [(0, cfgA), (1, cfgB)]
        (RefreshServerOutcome.ok "C2")).outcomes =
      [(0, BurstOutcome.retried
          { url := "/api/a", retry := true, authHeader := some "Bearer C2" }),
       (1, BurstOutcome.retried
          { url := "/api/b", retry := false, authHeader := some "Bearer C2" })] ∧
    refreshCallCount (runBurst (idleState (some "C1")) [(0, cfgA), (1, cfgB)]
        (RefreshServerOutcome.ok "C2")).trace = 1 ∧
    (responseErrorSync
        (runBurst (idleState (some "C1")) [(0, cfgA), (1, cfgB)]
          (RefreshServerOutcome.ok "C2")).final 1 (some 401)
        { url := "/api/b", retry := false, authHeader := some "Bearer C2" }).1 =
      SyncResult.initiated ∧
    refreshCallCount (responseErrorSync
        (runBurst (idleState (some "C1")) [(0, cfgA), (1, cfgB)]
          (RefreshServerOutcome.ok "C2")).final 1 (some 401)
        { url := "/api/b", retry := false, authHeader := some "Bearer C2" }).2.2.2 =
      1 := by
  decide

/-- Claim C2 (amended): a request whose `_retry` marker is set that
receives a second 401 is rejected as terminal — no state change, no
enqueueing, no refresh call — and the initiator's replayed request does
carry the marker, so the request that initiated a refresh can never cause
a second one.  Requests replayed from the pending queue are not marked
(their replays keep `retry = false`), so the one-shot guarantee holds for
the initiator but does not extend to queued waiters. -/
theorem c2_amended (st : ClientState) (wid : Nat) (status : Option Nat)
    (cfg : RequestConfig) (tok : Option String) (i0 : Nat)
    (c0 : RequestConfig) (rest : List (Nat × RequestConfig)) (t : String)
    (hm : cfg.retry = true) (h0 : plainCfg c0 = true)
    (hr : ∀ p ∈ rest, plainCfg p.2 = true) :
    responseErrorSync st wid status cfg =
      (SyncResult.rejectOriginal, cfg, st, []) ∧
    (runBurst (idleState tok) ((i0, c0) :: rest)
        (RefreshServerOutcome.ok t)).outcomes.head? =
      some (i0, BurstOutcome.retried (sentFor t { c0 with retry := true })) ∧
    (sentFor t { c0 with retry := true }).retry = true ∧
    (∀ p ∈ rest, (sentFor t p.2).retry = false) := by
  refine ⟨responseErrorSync_marked st wid status cfg hm, ?_, ?_, ?_⟩
  · rw [runBurst_ok_eq tok i0 c0 rest t h0 hr]
    rfl
  · rw [sentFor_retry]
  · intro p hp
    rw [sentFor_retry]
    exact (plainCfg_spec (hr p hp)).1

/-- Witness for the amended C2: a marked request with a second 401 in the
final state of a two-request burst, plus that burst itself. -/
theorem c2_amended_witness :
    (({ url := "/api/b", retry := true, authHeader := some "Bearer C2" }
        : RequestConfig).retry = true ∧
      plainCfg cfgA = true ∧ ∀ p ∈ [(1, cfgB)], plainCfg p.2 = true) ∧
    (responseErrorSync (idleState (some "C2")) 1 (some 401)
        { url := "/api/b", retry := true, authHeader := some "Bearer C2" } =
      (SyncResult.rejectOriginal,
        { url := "/api/b", retry := true, authHeader := some "Bearer C2" },
        idleState (some "C2"), []) ∧
    (runBurst (idleState (some "C1")) ((0, cfgA) :: [(1, cfgB)])
        (RefreshServerOutcome.ok "C2")).outcomes.head? =
      some (0, BurstOutcome.retried (sentFor "C2" { cfgA with retry := true })) ∧
    (sentFor "C2" { cfgA with retry := true }).retry = true ∧
    (∀ p ∈ [(1, cfgB)], (sentFor "C2" p.2).retry = false)) :=
  ⟨⟨by decide, by decide, by decide⟩,
    c2_amended (idleState (some "C2")) 1 (some 401)
      { url := "/api/b", retry := true, authHeader := some "Bearer C2" }
      (some "C1") 0 cfgA [(1, cfgB)] "C2" (by decide) (by decide) (by decide)⟩

/-! ### Claim C3 (corrected) -/

/-- Claim C3 counterexample: with three queued requests and the refresh
call itself answered with a 401, the session-expiry notification fires
twice — once in the response interceptor's `/auth/refresh` branch handling
the refresh request's own 401 and once in the initiator's catch block —
not exactly once as claimed. -/
theorem c3_counterexample :
    notifyCount (runBurst (idleState (some "C1"))
        [(0, cfgA), (1, cfgB), (2, cfgC), (3, cfgD)]
        (RefreshServerOutcome.httpErr 401)).trace = 2 := by
  decide

/-- Claim C3 (amended): for every failed refresh burst the session-expiry
notification fires exactly once when the refresh call failed with a
network error or a non-401 HTTP error, and exactly twice when the refresh
call itself was answered with a 401; in every case the count is
independent of how many requests were queued. -/
theorem c3_amended (tok : Option String) (i0 : Nat) (c0 : RequestConfig)
    (rest : List (Nat × RequestConfig))
    (h0 : plainCfg c0 = true) (hr : ∀ p ∈ rest, plainCfg p.2 = true) :
    notifyCount (runBurst (idleState tok) ((i0, c0) :: rest)
        (RefreshServerOutcome.httpErr 401)).trace = 2 ∧
    (∀ s, s ≠ 401 →
      notifyCount (runBurst (idleState tok) ((i0, c0) :: rest)
          (RefreshServerOutcome.httpErr s)).trace = 1) ∧
    notifyCount (runBurst (idleState tok) ((i0, c0) :: rest)
        RefreshServerOutcome.networkErr).trace = 1 := by
  refine ⟨?_, ?_, ?_⟩
  · rw [runBurst_fail401_eq tok i0 c0 rest h0 hr]
    have h1 := countP_map_zero (fun e => e == Event.notify)
      (fun p : Nat × RequestConfig =>
        Event.rejectWaiter p.1 (ErrVal.refreshErr (some 401))) rest
      (fun a => rfl)
    simp [notifyCount, List.countP_cons, List.countP_append, h1]
  · intro s hs
    rw [runBurst_failpass_eq tok i0 c0 rest (RefreshServerOutcome.httpErr s)
        (ErrVal.refreshErr (some s)) h0 hr (by simp [refreshFailVal])
        (by simp [hs])]
    have h1 := countP_map_zero (fun e => e == Event.notify)
      (fun p : Nat × RequestConfig =>
        Event.rejectWaiter p.1 (ErrVal.refreshErr (some s))) rest
      (fun a => rfl)
    simp [notifyCount, List.countP_cons, List.countP_append, h1]
  · rw [runBurst_failpass_eq tok i0 c0 rest RefreshServerOutcome.networkErr
        (ErrVal.refreshErr none) h0 hr (by simp [refreshFailVal]) (by simp)]
    have h1 := countP_map_zero (fun e => e == Event.notify)
      (fun p : Nat × RequestConfig =>
        Event.rejectWaiter p.1 (ErrVal.refreshErr none)) rest
      (fun a => rfl)
    simp [notifyCount, List.countP_cons, List.countP_append, h1]

/-- Witness for the amended C3: a two-request burst under each failure
mode. -/
theorem c3_amended_witness :
    (plainCfg cfgA = true ∧ ∀ p ∈ [(1, cfgB)], plainCfg p.2 = true) ∧
    (notifyCount (runBurst (idleState (some "C1")) ((0, cfgA) :: [(1, cfgB)])
        (RefreshServerOutcome.httpErr 401)).trace = 2 ∧
    (∀ s, s ≠ 401 →
      notifyCount (runBurst (idleState (some "C1")) ((0, cfgA) :: [(1, cfgB)])
          (RefreshServerOutcome.httpErr s)).trace = 1) ∧
    notifyCount (runBurst (idleState (some "C1")) ((0, cfgA) :: [(1, cfgB)])
        RefreshServerOutcome.networkErr).trace = 1) :=
  ⟨⟨by decide, by decide⟩,
    c3_amended (some "C1") 0 cfgA [(1, cfgB)] (by decide) (by decide)⟩

/-! ### Claim C4 (corrected) -/

/-- Claim C4 counterexample: the request interceptor has no endpoint
exclusion, so with a stored credential both a login request and the
refresh request itself are sent carrying the bearer authorization value —
the claim that the login and refresh calls carry no such value is false.
-/
theorem c4_counterexample :
    (requestInterceptor (some "C1")
        { url := "/auth/login", retry := false, authHeader := none }).authHeader =
      some "Bearer C1" ∧
    (requestInterceptor (some "C1") refreshBase).authHeader =
      some "Bearer C1" := by
  decide

/-- Claim C4 (amended): the request interceptor attaches the bearer form
of the currently stored credential to every outbound request — the login
and refresh calls included — whenever the store holds a non-empty token,
and sends the config unchanged when the store is empty; the value is read
fresh from the store at send time, so in a successful burst every
replayed request is sent with the newly stored token. -/
theorem c4_amended (tk : String) (cfg : RequestConfig) (tok : Option String)
    (i0 : Nat) (c0 : RequestConfig) (rest : List (Nat × RequestConfig))
    (t : String) (hk : tk ≠ "") (h0 : plainCfg c0 = true)
    (hr : ∀ p ∈ rest, plainCfg p.2 = true) :
    (requestInterceptor (some tk) cfg).authHeader = some ("Bearer " ++ tk) ∧
    requestInterceptor none cfg = cfg ∧
    (∀ a ∈ replayAuths (runBurst (idleState tok) ((i0, c0) :: rest)
        (RefreshServerOutcome.ok t)).trace, a = some ("Bearer " ++ t)) := by
  refine ⟨by simp [requestInterceptor, hk], rfl, ?_⟩
  rw [runBurst_ok_eq tok i0 c0 rest t h0 hr]
  have h1 := filterMap_map_eq_map
    (fun ev => match ev with
      | Event.replay w a => some a
      | _ => none)
    (fun p : Nat × RequestConfig =>
      Event.replay p.1 (sentFor t p.2).authHeader)
    (fun p => (sentFor t p.2).authHeader) rest (fun a => rfl)
  have h2 := filterMap_map_eq_nil
    (fun ev => match ev with
      | Event.replay w a => some a
      | _ => none)
    (fun p : Nat × RequestConfig => Event.resolveWaiter p.1 t) rest
    (fun a => rfl)
  intro a ha
  simp only [replayAuths, List.filterMap_cons, List.filterMap_append,
    h1, h2] at ha
  rcases List.mem_cons.mp ha with h | h
  · rw [h, sentFor_auth]
  · obtain ⟨q, hq, rfl⟩ := List.mem_map.mp h
    rw [sentFor_auth]

/-- Witness for the amended C4: a login config with a stored token, and a
two-request burst refreshing to a new token. -/
theorem c4_amended_witness :
    (("T" : String) ≠ "" ∧ plainCfg cfgA = true ∧
      ∀ p ∈ [(1, cfgB)], plainCfg p.2 = true) ∧
    ((requestInterceptor (some "T")
        { url := "/auth/login", retry := false, authHeader := none }).authHeader =
      some ("Bearer " ++ "T") ∧
    requestInterceptor none
        { url := "/auth/login", retry := false, authHeader := none } =
      { url := "/auth/login", retry := false, authHeader := none } ∧
    (∀ a ∈ replayAuths (runBurst (idleState (some "C1"))
        ((0, cfgA) :: [(1, cfgB)]) (RefreshServerOutcome.ok "C2")).trace,
      a = some ("Bearer " ++ "C2"))) :=
  ⟨⟨by decide, by decide, by decide⟩,
    c4_amended "T" { url := "/auth/login", retry := false, authHeader := none }
      (some "C1") 0 cfgA [(1, cfgB)] "C2" (by decide) (by decide) (by decide)⟩
